import Mathlib

/-!
Verification of the go-io-pi MCP23017 GPIO-expander driver (package iopi).

The driver in iopi.go is shallowly embedded here.  Go bytes are natural
numbers below 256; the transport (the os.File bus handle) is an abstract
stateful oracle supplying the results of Write and Read calls, and every
device operation additionally returns the ordered trace of transport calls
it performed, so that properties about the bytes observed on the wire can
be stated directly.
-/

namespace iopi

/- Go byte values are modelled as plain naturals (instances below 256);
the Go types Port, Mode, PinPolarity and PinState are likewise integer
types and are modelled as naturals carrying the iota values below. -/

/-! Register addresses, as defined in iopi.go (from the C implementation). -/

def IODIRA : Nat := 0x00

def IODIRB : Nat := 0x01

def IPOLA : Nat := 0x02

def IPOLB : Nat := 0x03

def IOCON : Nat := 0x0A

def GPPUA : Nat := 0x0C

def GPPUB : Nat := 0x0D

def GPIOA : Nat := 0x12

def GPIOB : Nat := 0x13

/-- Go constant PortA (type Port uint8, iota). -/
def PortA : Nat := 0

def PortB : Nat := 1

/-- Go constant Output (type Mode byte, iota). -/
def Output : Nat := 0

def Input : Nat := 1

/-- Go constant PinPolarityNormal (type PinPolarity byte, iota). -/
def PinPolarityNormal : Nat := 0

def PinPolarityInverted : Nat := 1

/-- Go constant StateLow (type PinState uint8, iota). -/
def StateLow : Nat := 0

def StateHigh : Nat := 1

/-! ## Bit-field utilities (setBit, getBit) -/

/-- Go expression byte(1) << bit: an 8-bit shift, zero once bit exceeds 7. -/
def shl1 (bit : Nat) : Nat := (1 <<< bit) % 256

/-- setBit from iopi.go: value 0 clears the bit (byt AND NOT mask, 8-bit
complement), any other int value sets it (byt OR mask). -/
def setBit (byt : Nat) (bit : Nat) (value : Int) : Nat :=
  if value = 0 then
    byt &&& (255 ^^^ shl1 bit)
  else
    byt ||| shl1 bit

/-- getBit from iopi.go: 1 when byt AND (1 << bit) is positive, else 0. -/
def getBit (byt : Nat) (bit : Nat) : Nat :=
  if byt &&& shl1 bit > 0 then 1 else 0

/-! ## Pin addressing -/

/-- Go uint8 subtraction, wrapping modulo 256. -/
def sub8 (a b : Nat) : Nat := (a + 256 - b % 256) % 256

/-- translatePin from iopi.go: pin numbers above 8 map to Nat B at index
pin - 1 - 8, the rest to Nat A at index pin - 1 (uint8 arithmetic). -/
def translatePin (pin : Nat) : Nat × Nat :=
  if pin > 8 then
    (sub8 (sub8 pin 1) 8, PortB)
  else
    (sub8 pin 1, PortA)

/-! ## Errors

Go errors are formatted strings; each fmt.Errorf call site in iopi.go is
modelled by a constructor recording exactly the data the format string
interpolates.  In particular the error built on a failed bus read carries
no byte count, mirroring the format string at that call site, while the
two write-failure errors do. -/

inductive GoError where
  | transportErr (code : Nat) : GoError
  | failedOpen (path : String) (inner : GoError) : GoError
  | failedBind (addr : Nat) (inner : GoError) : GoError
  | failedWriteBeforeRead (wrote : Nat) (inner : GoError) : GoError
  | failedReadFromSlave (inner : GoError) : GoError
  | failedWriteToSlave (wrote : Nat) (inner : GoError) : GoError
  | failedSetPinPullup (inner : GoError) : GoError
  | failedSetPinPolarity (inner : GoError) : GoError
  | failedSetPinDirection (inner : GoError) : GoError
  | failedWritePin (pin : Nat) (inner : GoError) : GoError
  | invalidPort (port : Nat) : GoError
deriving DecidableEq, Repr

/-- The byte count recorded in an error, when its constructor carries one. -/
def GoError.byteCount : GoError → Option Nat
  | .failedWriteBeforeRead n _ => some n
  | .failedWriteToSlave n _ => some n
  | _ => none

/-! ## The transport -/

/-- One observed transport call: a Write of a buffer, or a Read recording
the buffer handed in and its contents after the call. -/
inductive BusOp where
  | write (data : List Nat) : BusOp
  | read (buf : List Nat) (bufAfter : List Nat) : BusOp
deriving DecidableEq, Repr

/-- A transport oracle with state type sigma: write returns the byte count
and an optional error, read returns the data it places into the caller's
buffer, a byte count, and an optional error. -/
structure Bus (σ : Type) where
  write : σ → List Nat → σ × Nat × Option GoError
  read : σ → List Nat → σ × List Nat × Nat × Option GoError

/-- Semantics of Go Read(buf): the transport places data into the front of
the buffer, leaving anything beyond what it delivered untouched. -/
def fillBuf (buf data : List Nat) : List Nat :=
  data.take buf.length ++ buf.drop (min data.length buf.length)

/-- Result of an operation returning (byte, error) in Go, together with the
post-state of the transport and the trace of transport calls made. -/
structure ReadResult (σ : Type) where
  st : σ
  trace : List BusOp
  val : Nat
  err : Option GoError

/-- Result of an operation returning only an error in Go. -/
structure WriteResult (σ : Type) where
  st : σ
  trace : List BusOp
  err : Option GoError

variable {σ : Type}

/-! ## Primitive register operations -/

/-- ReadByteData from iopi.go: write the one-byte buffer [reg]; on write
failure wrap the error together with the count written; otherwise read into
the same buffer, wrapping a read failure without any count; on success
return byte 0 of the buffer. -/
def ReadByteData (bus : Bus σ) (s : σ) (reg : Nat) : ReadResult σ :=
  let buf := [reg]
  match bus.write s buf with
  | (s1, n, some e) =>
      { st := s1, trace := [BusOp.write buf], val := 0x0,
        err := some (GoError.failedWriteBeforeRead n e) }
  | (s1, _, none) =>
      match bus.read s1 buf with
      | (s2, data, _, some e) =>
          { st := s2, trace := [BusOp.write buf, BusOp.read buf (fillBuf buf data)],
            val := 0x0, err := some (GoError.failedReadFromSlave e) }
      | (s2, data, _, none) =>
          { st := s2, trace := [BusOp.write buf, BusOp.read buf (fillBuf buf data)],
            val := (fillBuf buf data).headD 0, err := none }

/-- WriteByteData from iopi.go: write the two-byte buffer [reg, value],
wrapping a failure together with the count written. -/
def WriteByteData (bus : Bus σ) (s : σ) (reg value : Nat) : WriteResult σ :=
  let buf := [reg, value]
  match bus.write s buf with
  | (s1, n, some e) =>
      { st := s1, trace := [BusOp.write buf], err := some (GoError.failedWriteToSlave n e) }
  | (s1, _, none) =>
      { st := s1, trace := [BusOp.write buf], err := none }

/-! ## Nat-level operations -/

/-- SetPortPullups from iopi.go. -/
def SetPortPullups (bus : Bus σ) (s : σ) (port : Nat) (state : Nat) : WriteResult σ :=
  if port = PortA then WriteByteData bus s GPPUA state
  else if port = PortB then WriteByteData bus s GPPUB state
  else { st := s, trace := [], err := some (GoError.invalidPort port) }

/-- SetPortPolarity from iopi.go. -/
def SetPortPolarity (bus : Bus σ) (s : σ) (port : Nat) (pol : Nat) : WriteResult σ :=
  if port = PortA then WriteByteData bus s IPOLA pol
  else if port = PortB then WriteByteData bus s IPOLB pol
  else { st := s, trace := [], err := some (GoError.invalidPort port) }

/-- SetPortDirection from iopi.go. -/
def SetPortDirection (bus : Bus σ) (s : σ) (port : Nat) (mode : Nat) : WriteResult σ :=
  if port = PortA then WriteByteData bus s IODIRA mode
  else if port = PortB then WriteByteData bus s IODIRB mode
  else { st := s, trace := [], err := some (GoError.invalidPort port) }

/-- WritePort from iopi.go. -/
def WritePort (bus : Bus σ) (s : σ) (port : Nat) (state : Nat) : WriteResult σ :=
  if port = PortA then WriteByteData bus s GPIOA state
  else if port = PortB then WriteByteData bus s GPIOB state
  else { st := s, trace := [], err := some (GoError.invalidPort port) }

/-- ReadPort from iopi.go: a zero byte accompanies the invalid-port error. -/
def ReadPort (bus : Bus σ) (s : σ) (port : Nat) : ReadResult σ :=
  if port = PortA then ReadByteData bus s GPIOA
  else if port = PortB then ReadByteData bus s GPIOB
  else { st := s, trace := [], val := 0x00, err := some (GoError.invalidPort port) }

/-! ## Pin-level operations -/

/-- SetPinPullup from iopi.go.  Note the Go source shadows its state
parameter with the byte read back from the pull-up register, so the bit
value handed to setBit is that read-back byte, never the caller's
argument; the embedding reproduces the shadowing faithfully. -/
def SetPinPullup (bus : Bus σ) (s : σ) (pin : Nat) (state : Nat) : WriteResult σ :=
  let pp := translatePin pin
  let reg := if pp.2 = PortA then GPPUA else GPPUB
  let r := ReadByteData bus s reg
  match r.err with
  | some e => { st := r.st, trace := r.trace, err := some (GoError.failedSetPinPullup e) }
  | none =>
      let w := WriteByteData bus r.st reg (setBit r.val pp.1 (Int.ofNat r.val))
      { st := w.st, trace := r.trace ++ w.trace, err := w.err }

/-- SetPinPolarity from iopi.go. -/
def SetPinPolarity (bus : Bus σ) (s : σ) (pin : Nat) (pol : Nat) : WriteResult σ :=
  let pp := translatePin pin
  let reg := if pp.2 = PortA then IPOLA else IPOLB
  let r := ReadByteData bus s reg
  match r.err with
  | some e => { st := r.st, trace := r.trace, err := some (GoError.failedSetPinPolarity e) }
  | none =>
      let w := WriteByteData bus r.st reg (setBit r.val pp.1 (Int.ofNat pol))
      { st := w.st, trace := r.trace ++ w.trace, err := w.err }

/-- SetPinDirection from iopi.go. -/
def SetPinDirection (bus : Bus σ) (s : σ) (pin : Nat) (mode : Nat) : WriteResult σ :=
  let pp := translatePin pin
  let reg := if pp.2 = PortA then IODIRA else IODIRB
  let r := ReadByteData bus s reg
  match r.err with
  | some e => { st := r.st, trace := r.trace, err := some (GoError.failedSetPinDirection e) }
  | none =>
      let w := WriteByteData bus r.st reg (setBit r.val pp.1 (Int.ofNat mode))
      { st := w.st, trace := r.trace ++ w.trace, err := w.err }

/-- WritePin from iopi.go: read the whole port, set the pin's bit to the
requested state, write the port back. -/
def WritePin (bus : Bus σ) (s : σ) (pin : Nat) (state : Nat) : WriteResult σ :=
  let pp := translatePin pin
  let r := ReadPort bus s pp.2
  match r.err with
  | some e => { st := r.st, trace := r.trace, err := some (GoError.failedWritePin pp.1 e) }
  | none =>
      let w := WritePort bus r.st pp.2 (setBit r.val pp.1 (Int.ofNat state))
      { st := w.st, trace := r.trace ++ w.trace, err := w.err }

/-- ReadPin from iopi.go: the port byte is consulted even when the read
errored (it is then the zero byte). -/
def ReadPin (bus : Bus σ) (s : σ) (pin : Nat) : ReadResult σ :=
  let pp := translatePin pin
  let r := ReadPort bus s pp.2
  { st := r.st, trace := r.trace, val := getBit r.val pp.1, err := r.err }

/-! ## Initialisation -/

/-- The fields of the Go I2CDevice struct: the chip address, the transport
path, and whether the bus handle is already live (dev.bus non-nil).  The
struct has no mutex or lock field of any kind. -/
structure I2CDevice where
  Address : Nat
  Path : String
  busOpen : Bool

/-- driverInit from iopi.go: seven register writes, every returned error
discarded (the TODO comment in the source marks them unhandled). -/
def driverInit (bus : Bus σ) (s : σ) : σ × List BusOp :=
  let w1 := WriteByteData bus s IOCON 0x22
  let w2 := SetPortDirection bus w1.st PortA Input
  let w3 := SetPortDirection bus w2.st PortB Input
  let w4 := SetPortPullups bus w3.st PortA 0x00
  let w5 := SetPortPullups bus w4.st PortB 0x00
  let w6 := SetPortPolarity bus w5.st PortA PinPolarityNormal
  let w7 := SetPortPolarity bus w6.st PortB PinPolarityNormal
  (w7.st, w1.trace ++ w2.trace ++ w3.trace ++ w4.trace ++ w5.trace ++ w6.trace ++ w7.trace)

/-- Init from iopi.go.  openErr models the outcome of os.OpenFile (only
consulted when the device holds no live bus handle yet) and bindErr the
outcome of the I2C_SLAVE ioctl; both abort Init with a wrapped error.
Otherwise driverInit runs and Init returns nil unconditionally. -/
def Init (dev : I2CDevice) (openErr bindErr : Option GoError)
    (bus : Bus σ) (s : σ) : σ × List BusOp × Option GoError :=
  match (if dev.busOpen then none else openErr) with
  | some e => (s, [], some (GoError.failedOpen dev.Path e))
  | none =>
      match bindErr with
      | some e => (s, [], some (GoError.failedBind dev.Address e))
      | none =>
          let d := driverInit bus s
          (d.1, d.2, none)

/-! ## Concrete transports used as test inputs -/

/-- A transport that accepts every write in full and answers every read
with a single 0x00 byte (the FakeFile of the test suite with a zeroed
register image behaves this way). -/
def zeroBus : Bus Unit where
  write := fun _ data => ((), data.length, none)
  read := fun _ _ => ((), [0x00], 1, none)

/-- A transport whose writes succeed in full but whose reads deliver zero
bytes while reporting no error, as the io.Reader contract permits. -/
def silentShortReadBus : Bus Unit where
  write := fun _ data => ((), data.length, none)
  read := fun _ _ => ((), [], 0, none)

/-- A transport whose every write fails having transferred nothing. -/
def failWriteBus : Bus Unit where
  write := fun _ _ => ((), 0, some (GoError.transportErr 5))
  read := fun _ _ => ((), [0x00], 1, none)

/-- A transport whose writes succeed but whose reads fail. -/
def failReadBus : Bus Unit where
  write := fun _ data => ((), data.length, none)
  read := fun _ _ => ((), [], 0, some (GoError.transportErr 7))

/-! ## Concurrency model

The I2CDevice struct carries no lock, and the constructor comment in
iopi.go states that sharing a file descriptor between devices is not yet
safe; concurrent devices on one transport therefore produce an arbitrary
interleaving of their individual transport calls. -/

/-- All interleavings of two call sequences on a shared transport. -/
inductive Interleaving : List BusOp → List BusOp → List BusOp → Prop where
  | nil : Interleaving [] [] []
  | left (x : BusOp) {xs ys zs : List BusOp} :
      Interleaving xs ys zs → Interleaving (x :: xs) ys (x :: zs)
  | right (y : BusOp) {xs ys zs : List BusOp} :
      Interleaving xs ys zs → Interleaving xs (y :: ys) (y :: zs)

/-- xs occurs at the head of zs. -/
def startsWithOps : List BusOp → List BusOp → Bool
  | [], _ => true
  | _ :: _, [] => false
  | x :: xs, z :: zs => if x = z then startsWithOps xs zs else false

/-- xs occurs contiguously somewhere inside zs. -/
def containsRun (xs : List BusOp) : List BusOp → Bool
  | [] => xs.isEmpty
  | z :: zs => startsWithOps xs (z :: zs) || containsRun xs zs

/-- A schedule a shared, unsynchronized transport can observe when one
device runs ReadByteData on GPIOA while another runs WriteByteData on
IODIRA: the second device's write lands between the first device's
address write and its data read. -/
def splitSchedule : List BusOp :=
  [BusOp.write [GPIOA], BusOp.write [IODIRA, 0xFF], BusOp.read [GPIOA] [0x00]]

/-! ## General lemmas -/

theorem WriteByteData_trace (bus : Bus σ) (s : σ) (reg value : Nat) :
    (WriteByteData bus s reg value).trace = [BusOp.write [reg, value]] := by
  rcases hw : bus.write s [reg, value] with ⟨s1, n, e⟩
  cases e <;> simp [WriteByteData, hw]

theorem mem_of_interleaving_left {xs ys zs : List BusOp} (h : Interleaving xs ys zs) :
    ∀ x ∈ xs, x ∈ zs := by
  induction h with
  | nil => intro x hx; exact absurd hx (List.not_mem_nil x)
  | left a h ih =>
      intro x hx
      rcases List.mem_cons.mp hx with rfl | hx
      · exact List.mem_cons_self _ _
      · exact List.mem_cons_of_mem _ (ih x hx)
  | right b h ih =>
      intro x hx
      exact List.mem_cons_of_mem _ (ih x hx)

theorem containsRun_singleton_of_mem {x : BusOp} {zs : List BusOp} (h : x ∈ zs) :
    containsRun [x] zs = true := by
  induction zs with
  | nil => cases h
  | cons z zs ih =>
      rcases List.mem_cons.mp h with rfl | h
      · simp [containsRun, startsWithOps]
      · simp [containsRun, ih h]

theorem shl1_eq_zero {i : Nat} (hi : 8 ≤ i) : shl1 i = 0 := by
  obtain ⟨k, rfl⟩ := Nat.exists_eq_add_of_le hi
  show (1 <<< (8 + k)) % 256 = 0
  rw [Nat.shiftLeft_eq, one_mul, pow_add]
  norm_num

/-! ## Claim theorems -/

/-- C1: against a transport whose pull-up register reads back 0x00 and
whose writes succeed, SetPinPullup(7, 1) writes the bytes [GPPUA, 0x00]
to the transport and SetPinPullup(16, 1) writes [GPPUB, 0x00] — not the
[GPPUA, 0b01000000] and [GPPUB, 0b10000000] the specification and the
TestSetPinPullup test require: the source shadows the state parameter
with the read-back register byte, so the bit is derived from that byte
(here zero, clearing it) instead of from the caller's argument. -/
theorem C1_setPinPullup_ignores_enabled :
    (SetPinPullup zeroBus () 7 1).trace =
      [BusOp.write [GPPUA], BusOp.read [GPPUA] [0x00], BusOp.write [GPPUA, 0x00]] ∧
    (SetPinPullup zeroBus () 16 1).trace =
      [BusOp.write [GPPUB], BusOp.read [GPPUB] [0x00], BusOp.write [GPPUB, 0x00]] ∧
    (SetPinPullup zeroBus () 7 1).trace.contains (BusOp.write [GPPUA, 0b01000000]) = false ∧
    (SetPinPullup zeroBus () 16 1).trace.contains (BusOp.write [GPPUB, 0b10000000]) = false := by
  decide

/-- C2: on a transport whose writes all succeed, driverInit writes exactly
[IOCON,0x22], [IODIRA,0x01], [IODIRB,0x01], [GPPUA,0x00], [GPPUB,0x00],
[IPOLA,0x00], [IPOLB,0x00] — the direction writes carry 0x01 (the iota
value of Nat Input), not the 0xFF the specification and the TestInit
test require, so the all-input writes [IODIRA,0xFF] and [IODIRB,0xFF]
never appear in the transaction log. -/
theorem C2_driverInit_direction_bytes :
    (driverInit zeroBus ()).2 =
      [BusOp.write [IOCON, 0x22], BusOp.write [IODIRA, 0x01], BusOp.write [IODIRB, 0x01],
       BusOp.write [GPPUA, 0x00], BusOp.write [GPPUB, 0x00],
       BusOp.write [IPOLA, 0x00], BusOp.write [IPOLB, 0x00]] ∧
    (driverInit zeroBus ()).2.contains (BusOp.write [IODIRA, 0xFF]) = false ∧
    (driverInit zeroBus ()).2.contains (BusOp.write [IODIRB, 0xFF]) = false := by
  decide

/-- C3 counterexample: against a transport whose read delivers zero of the
one requested byte while reporting no error, ReadByteData is not a hard
error at all: it returns err none and hands back the register address
still sitting in the buffer as though it were the byte read. -/
theorem C3_short_read_not_detected :
    (silentShortReadBus.read () [0x42]).2.2.1 = 0 ∧
    (ReadByteData silentShortReadBus () 0x42).err = none ∧
    (ReadByteData silentShortReadBus () 0x42).val = 0x42 := by
  decide

/-- C3 (amended): WriteByteData and ReadByteData return an error exactly
when the transport reports one; the two write-path errors carry the byte
count the transport returned, but the read-path error of ReadByteData
carries no byte count, and a short read reported without a transport
error produces no error. -/
theorem C3_error_propagation (σ : Type) (bus : Bus σ) (s : σ) (reg value : Nat) :
    (∀ s1 n e, bus.write s [reg, value] = (s1, n, some e) →
        (WriteByteData bus s reg value).err = some (GoError.failedWriteToSlave n e) ∧
        (GoError.failedWriteToSlave n e).byteCount = some n) ∧
    (∀ s1 n, bus.write s [reg, value] = (s1, n, none) →
        (WriteByteData bus s reg value).err = none) ∧
    (∀ s1 n e, bus.write s [reg] = (s1, n, some e) →
        (ReadByteData bus s reg).err = some (GoError.failedWriteBeforeRead n e) ∧
        (GoError.failedWriteBeforeRead n e).byteCount = some n) ∧
    (∀ s1 n1 s2 data n2 e, bus.write s [reg] = (s1, n1, none) →
        bus.read s1 [reg] = (s2, data, n2, some e) →
        (ReadByteData bus s reg).err = some (GoError.failedReadFromSlave e) ∧
        (GoError.failedReadFromSlave e).byteCount = none) ∧
    (∀ s1 n1 s2 data n2, bus.write s [reg] = (s1, n1, none) →
        bus.read s1 [reg] = (s2, data, n2, none) →
        (ReadByteData bus s reg).err = none) := by
  refine ⟨?_, ?_, ?_, ?_, ?_⟩
  · intro s1 n e h
    exact ⟨by simp [WriteByteData, h], rfl⟩
  · intro s1 n h
    simp [WriteByteData, h]
  · intro s1 n e h
    exact ⟨by simp [ReadByteData, h], rfl⟩
  · intro s1 n1 s2 data n2 e h1 h2
    exact ⟨by simp [ReadByteData, h1, h2], rfl⟩
  · intro s1 n1 s2 data n2 h1 h2
    simp [ReadByteData, h1, h2]

/-- Witness for C3_error_propagation at concrete transports. -/
theorem C3_error_propagation_witness :
    (WriteByteData failWriteBus () 0x42 0x11).err =
      some (GoError.failedWriteToSlave 0 (GoError.transportErr 5)) ∧
    (ReadByteData failReadBus () 0x42).err =
      some (GoError.failedReadFromSlave (GoError.transportErr 7)) ∧
    (ReadByteData zeroBus () 0x42).err = none :=
  ⟨((C3_error_propagation Unit failWriteBus () 0x42 0x11).1 () 0 _ rfl).1,
   ((C3_error_propagation Unit failReadBus () 0x42 0x11).2.2.2.1 () 1 () [] 0 _ rfl rfl).1,
   (C3_error_propagation Unit zeroBus () 0x42 0x11).2.2.2.2 () 1 () [0x00] 1 rfl rfl⟩

/-- C4 counterexample: the driver takes no lock (the I2CDevice struct has
no mutex field), so the transport calls of two devices sharing one bus may
interleave arbitrarily; here a legal interleaving of one device's
ReadByteData(GPIOA) with another device's WriteByteData(IODIRA, 0xFF)
splits the read transaction, whose two calls are then not contiguous in
the observed schedule. -/
theorem C4_interleaving_splits_read :
    Interleaving (ReadByteData zeroBus () GPIOA).trace
      (WriteByteData zeroBus () IODIRA 0xFF).trace splitSchedule ∧
    containsRun (ReadByteData zeroBus () GPIOA).trace splitSchedule = false := by
  constructor
  · show Interleaving [BusOp.write [GPIOA], BusOp.read [GPIOA] [0x00]]
      [BusOp.write [IODIRA, 0xFF]]
      [BusOp.write [GPIOA], BusOp.write [IODIRA, 0xFF], BusOp.read [GPIOA] [0x00]]
    exact Interleaving.left _ (Interleaving.right _ (Interleaving.left _ Interleaving.nil))
  · decide

/-- C4 (amended): the code holds no mutex, so concurrent devices sharing a
transport observe arbitrary interleavings of their calls; a WriteByteData
transaction is a single transport call and therefore still appears
contiguously in every interleaving, but a ReadByteData transaction is two
calls and a legal interleaving can split it. -/
theorem C4_write_contiguous_read_splittable (σ : Type) (bus : Bus σ) (s : σ)
    (reg value : Nat) (other z : List BusOp)
    (h : Interleaving (WriteByteData bus s reg value).trace other z) :
    containsRun (WriteByteData bus s reg value).trace z = true ∧
    (Interleaving (ReadByteData zeroBus () GPIOA).trace
        (WriteByteData zeroBus () IODIRA 0xFF).trace splitSchedule ∧
      containsRun (ReadByteData zeroBus () GPIOA).trace splitSchedule = false) := by
  refine ⟨?_, ?_, by decide⟩
  · rw [WriteByteData_trace] at h ⊢
    exact containsRun_singleton_of_mem
      (mem_of_interleaving_left h _ (List.mem_cons_self _ _))
  · show Interleaving [BusOp.write [GPIOA], BusOp.read [GPIOA] [0x00]]
      [BusOp.write [IODIRA, 0xFF]]
      [BusOp.write [GPIOA], BusOp.write [IODIRA, 0xFF], BusOp.read [GPIOA] [0x00]]
    exact Interleaving.left _ (Interleaving.right _ (Interleaving.left _ Interleaving.nil))

/-- Witness for C4_write_contiguous_read_splittable at a concrete schedule. -/
theorem C4_write_contiguous_read_splittable_witness :
    containsRun (WriteByteData zeroBus () IODIRA 0xFF).trace splitSchedule = true ∧
    (Interleaving (ReadByteData zeroBus () GPIOA).trace
        (WriteByteData zeroBus () IODIRA 0xFF).trace splitSchedule ∧
      containsRun (ReadByteData zeroBus () GPIOA).trace splitSchedule = false) :=
  C4_write_contiguous_read_splittable Unit zeroBus () IODIRA 0xFF
    (ReadByteData zeroBus () GPIOA).trace splitSchedule
    (Interleaving.right _ (Interleaving.left _ (Interleaving.right _ Interleaving.nil)))

/-- C5: for every transport, ReadByteData(reg) makes the write of the
one-byte buffer [reg] its first transport call; any read call in its trace
was handed that buffer and is immediately preceded by the address write;
and when both calls succeed with the transport delivering a first byte b,
that byte b is returned. -/
theorem C5_addressed_read_protocol (σ : Type) (bus : Bus σ) (s : σ) (reg : Nat) :
    (∃ rest, (ReadByteData bus s reg).trace = BusOp.write [reg] :: rest) ∧
    (∀ b a, BusOp.read b a ∈ (ReadByteData bus s reg).trace →
        b = [reg] ∧ (ReadByteData bus s reg).trace = [BusOp.write [reg], BusOp.read b a]) ∧
    (∀ s1 n1 s2 b rest n2, bus.write s [reg] = (s1, n1, none) →
        bus.read s1 [reg] = (s2, b :: rest, n2, none) →
        (ReadByteData bus s reg).val = b ∧
        (ReadByteData bus s reg).trace = [BusOp.write [reg], BusOp.read [reg] [b]]) := by
  refine ⟨?_, ?_, ?_⟩
  · rcases hw : bus.write s [reg] with ⟨s1, n1, e1⟩
    cases e1 with
    | none =>
        rcases hr : bus.read s1 [reg] with ⟨s2, data, n2, e2⟩
        cases e2 with
        | none =>
            exact ⟨[BusOp.read [reg] (fillBuf [reg] data)], by simp [ReadByteData, hw, hr]⟩
        | some e =>
            exact ⟨[BusOp.read [reg] (fillBuf [reg] data)], by simp [ReadByteData, hw, hr]⟩
    | some e => exact ⟨[], by simp [ReadByteData, hw]⟩
  · intro b a hmem
    rcases hw : bus.write s [reg] with ⟨s1, n1, e1⟩
    cases e1 with
    | none =>
        rcases hr : bus.read s1 [reg] with ⟨s2, data, n2, e2⟩
        cases e2 <;> simp [ReadByteData, hw, hr] at hmem ⊢ <;>
          (obtain ⟨h1, h2⟩ := hmem; subst h1; subst h2; simp)
    | some e => simp [ReadByteData, hw] at hmem
  · intro s1 n1 s2 b rest n2 h1 h2
    constructor
    · simp [ReadByteData, h1, h2, fillBuf]
    · simp [ReadByteData, h1, h2, fillBuf]

/-- Witness for C5_addressed_read_protocol at a concrete transport. -/
theorem C5_addressed_read_protocol_witness :
    (ReadByteData zeroBus () 0x42).val = 0x00 ∧
    (ReadByteData zeroBus () 0x42).trace =
      [BusOp.write [0x42], BusOp.read [0x42] [0x00]] :=
  (C5_addressed_read_protocol Unit zeroBus () 0x42).2.2 () 1 () 0x00 [] 1 rfl rfl

/-- C6: translatePin is pure and total; on 1..8 it yields the zero-based
bit index pin - 1 on Nat A, on 9..16 it yields pin - 9 on Nat B, and in
particular pin 7 maps to bit 6 of Nat A, pin 16 to bit 7 of Nat B, and
pin 9 to bit 0 of Nat B. -/
theorem C6_translatePin_mapping (p : Nat) :
    (1 ≤ p → p ≤ 8 → translatePin p = (p - 1, PortA)) ∧
    (9 ≤ p → p ≤ 16 → translatePin p = (p - 9, PortB)) ∧
    translatePin 7 = (6, PortA) ∧ translatePin 16 = (7, PortB) ∧
    translatePin 9 = (0, PortB) := by
  refine ⟨?_, ?_, by decide, by decide, by decide⟩
  · intro h1 h8
    have hle : ¬ p > 8 := by omega
    have ht : translatePin p = (sub8 p 1, PortA) := by
      unfold translatePin
      rw [if_neg hle]
    have hs : sub8 p 1 = p - 1 := by
      unfold sub8
      omega
    rw [ht, hs]
  · intro h9 h16
    have hgt : p > 8 := by omega
    have ht : translatePin p = (sub8 (sub8 p 1) 8, PortB) := by
      unfold translatePin
      rw [if_pos hgt]
    have hs : sub8 (sub8 p 1) 8 = p - 9 := by
      unfold sub8
      omega
    rw [ht, hs]

/-- Witness for C6_translatePin_mapping on both ranges. -/
theorem C6_translatePin_mapping_witness :
    translatePin 7 = (6, PortA) ∧ translatePin 10 = (1, PortB) :=
  ⟨(C6_translatePin_mapping 7).1 (by decide) (by decide),
   (C6_translatePin_mapping 10).2.1 (by decide) (by decide)⟩

/-- C7: against any transport state in which reading the GPIOB register
succeeds with value 0x00, WritePin(15, StateHigh) performs that read and
then writes the two bytes [GPIOB, 0b01000000] to the transport. -/
theorem C7_writePin15_high (σ : Type) (bus : Bus σ) (s : σ)
    (h : (ReadByteData bus s GPIOB).err = none)
    (h0 : (ReadByteData bus s GPIOB).val = 0x00) :
    (WritePin bus s 15 StateHigh).trace =
      (ReadByteData bus s GPIOB).trace ++ [BusOp.write [GPIOB, 0b01000000]] := by
  have hrp : ReadPort bus s (translatePin 15).2 = ReadByteData bus s GPIOB := rfl
  rcases hr : ReadByteData bus s GPIOB with ⟨rst, rtr, rval, rerr⟩
  rw [hr] at h h0
  simp only at h h0
  subst h h0
  show (WritePin bus s 15 StateHigh).trace = rtr ++ [BusOp.write [GPIOB, 0b01000000]]
  simp only [WritePin, hrp, hr]
  have hsb : setBit 0x00 (translatePin 15).1 (Int.ofNat StateHigh) = (0b01000000 : Nat) := by
    decide
  have hwp : ∀ (st : σ) (v : Nat),
      WritePort bus st (translatePin 15).2 v = WriteByteData bus st GPIOB v :=
    fun _ _ => rfl
  rw [hsb, hwp, WriteByteData_trace]

/-- Witness for C7_writePin15_high at a concrete transport. -/
theorem C7_writePin15_high_witness :
    (WritePin zeroBus () 15 StateHigh).trace =
      (ReadByteData zeroBus () GPIOB).trace ++ [BusOp.write [GPIOB, 0b01000000]] :=
  C7_writePin15_high Unit zeroBus () rfl rfl

/-- C8: Init returns an error exactly when opening the transport (only
consulted when no live handle exists yet) or the address-binding ioctl
fails; once both succeed, Init returns nil whatever the transport does
during the register writes of driverInit, whose errors never propagate. -/
theorem C8_init_error_conditions (dev : I2CDevice) (openErr bindErr : Option GoError)
    (σ σ' : Type) (bus : Bus σ) (bus' : Bus σ') (s : σ) (s' : σ') :
    ((Init dev openErr bindErr bus s).2.2 = none ↔
      ((dev.busOpen = true ∨ openErr = none) ∧ bindErr = none)) ∧
    (Init dev openErr bindErr bus s).2.2 = (Init dev openErr bindErr bus' s').2.2 := by
  cases hb : dev.busOpen <;> cases openErr <;> cases bindErr <;> simp [Init, hb]

/-- Witness for C8_init_error_conditions on a device with a live handle. -/
theorem C8_init_error_conditions_witness :
    (Init ⟨0x20, "fake", true⟩ none none zeroBus ()).2.2 = none :=
  (C8_init_error_conditions ⟨0x20, "fake", true⟩ none none Unit Unit
    zeroBus zeroBus () ()).1.mpr ⟨Or.inl rfl, rfl⟩

/-- C9: SetPinPullup ignores its state argument entirely: for any
transport, state and pin, two calls differing only in that argument are
identical in post-state, trace and error, because the written bit value is
derived from the byte read back from the pull-up register (the Go source
shadows the parameter). -/
theorem C9_setPinPullup_state_independent (σ : Type) (bus : Bus σ) (s : σ)
    (pin a b : Nat) :
    SetPinPullup bus s pin a = SetPinPullup bus s pin b := rfl

/-- C10: for every byte below 256, every int value and every bit index of
8 or more, setBit returns the byte unchanged and getBit returns 0: the
8-bit shift byte(1) << bit is zero there, so out-of-range indices are
no-ops at the bit-utility level. -/
theorem C10_out_of_range_bits (b i : Nat) (v : Int) (hb : b < 256) (hi : 8 ≤ i) :
    setBit b i v = b ∧ getBit b i = 0 := by
  have h0 : shl1 i = 0 := shl1_eq_zero hi
  have hb' : b < 2 ^ 8 := by norm_num [hb]
  constructor
  · unfold setBit
    rw [h0, Nat.xor_zero]
    split
    · have h255 : (255 : Nat) = 2 ^ 8 - 1 := by norm_num
      rw [h255]
      exact Nat.and_pow_two_sub_one_of_lt_two_pow hb'
    · exact Nat.or_zero b
  · unfold getBit
    rw [h0]
    simp

/-- Witness for C10_out_of_range_bits at byte 0xAB and index 8. -/
theorem C10_out_of_range_bits_witness :
    setBit 0xAB 8 1 = 0xAB ∧ getBit 0xAB 8 = 0 :=
  C10_out_of_range_bits 0xAB 8 1 (by decide) (by decide)

end iopi
